import Mathlib

/-!
Shallow embedding of the search-ui-backend retrieval and chat pipeline.

Source files embedded here:
* `src/elasticsearch_service.py` — index gateway, structured entity search,
  note search, hybrid document search with per-card aggregation;
* `src/notes_service.py` — note retrieval;
* `src/chat_service.py` — query planner, standard-table search, RAG loop
  with conditional web fallback;
* `src/web_search_service.py` — web search collaborator (oracle here).

The external Elasticsearch engine and the LLM/embedding providers are
modelled as explicit oracles / state: Elasticsearch document storage is an
explicit `EsState`, search responses are oracle functions from the exact
query body the code builds to an optional hit list (`none` models the call
raising, which the code catches), and LLM calls are `Except`-valued
parameters.  Python floats (relevance scores) are modelled as `Rat`: the
code only compares and sorts them.  Python `str.strip` is modelled by
`pyStrip`, and Python string truthiness (`if not s`) by emptiness.
-/

/-- Python `str.strip()`: drop leading and trailing whitespace.  Written
over the character list so the kernel can evaluate it. -/
def pyStrip (s : String) : String :=
  String.mk (((s.data.dropWhile Char.isWhitespace).reverse.dropWhile
    Char.isWhitespace).reverse)

/-- Worker for `pySplit`, with explicit fuel so it is structurally
recursive and kernel-evaluable. -/
def pySplitGo (sep : List Char) : Nat → List Char → List Char → List (List Char)
  | _, acc, [] => [acc.reverse]
  | 0, acc, rest => [acc.reverse ++ rest]
  | fuel + 1, acc, c :: rest =>
    if sep.isPrefixOf (c :: rest) then
      acc.reverse :: pySplitGo sep fuel [] (List.drop (sep.length - 1) rest)
    else pySplitGo sep fuel (c :: acc) rest

/-- Python `str.split(sep)` for a non-empty separator: the pieces of `s`
between the non-overlapping occurrences of `sep`, always at least one
piece. -/
def pySplit (s sep : String) : List String :=
  (pySplitGo sep.data (s.data.length + 1) [] s.data).map String.mk

/-- Value of a decimal digit character. -/
def digitVal (c : Char) : Option Nat :=
  if c.isDigit then some (c.toNat - '0'.toNat) else none

/-- Parse of a non-empty all-digit string as a natural number. -/
def parseNatChars : List Char → Option Nat
  | [] => none
  | cs =>
    cs.foldl
      (fun acc c =>
        match acc, digitVal c with
        | some n, some d => some (n * 10 + d)
        | _, _ => none)
      (some 0)

/-- Index name constant from `elasticsearch_service.py` line 32. -/
def INDEX_COMPANIES : String := "companies"

/-- Index name constant from `elasticsearch_service.py` line 33. -/
def INDEX_PERSONS : String := "persons"

/-- Index name constant from `elasticsearch_service.py` line 34. -/
def INDEX_NOTES : String := "notes"

/-- Index name constant from `elasticsearch_service.py` line 35. -/
def INDEX_DOCUMENTS : String := "documents"

/-- Metadata map of an indexed document: a Python dict whose values may be
`None` (modelled `none`) or strings. -/
abbrev Metadata := List (String × Option String)

/-- Lookup of a metadata key: `none` when the key is absent, `some v` when
present with value `v` (which is itself `Option String`, `none` for Python
`None`). -/
def metaLookup (m : Metadata) (k : String) : Option (Option String) :=
  (m.find? (fun p => p.1 == k)).map Prod.snd

/-- Python `meta.get(k, default)` as rendered into an f-string: a present
key with value `None` renders as the string `"None"`. -/
def metaGetD (m : Metadata) (k default : String) : String :=
  match metaLookup m k with
  | none => default
  | some none => "None"
  | some (some v) => v

/-- Python truthiness for a `meta.get(k)` / `or`-chain operand: a missing
key, a `None` value and an empty string are all falsy. -/
def metaTruthy (m : Metadata) (k : String) : Option String :=
  match metaLookup m k with
  | some (some v) => if v = "" then none else some v
  | _ => none

/-- Python truthiness filter on an optional string: keeps only a present,
non-empty value. -/
def truthy : Option String → Option String
  | some s => if s = "" then none else some s
  | none => none

/-- Python `a or b` for an optional string `a` and a string fallback `b`. -/
def orStr (a : Option String) (b : String) : String :=
  match truthy a with
  | some s => s
  | none => b

/-- One stored Elasticsearch document (the `_source` of a hit), covering the
fields the embedded code reads and writes. -/
structure EsDoc where
  id : String
  card_id : String
  card_type : Option String := none
  title : String := ""
  content : String := ""
  text_embedding : Option (List Rat) := none
  metadata : Metadata := []
  created_at : String := ""
  updated_at : String := ""
deriving Repr, DecidableEq

/-- State of the external Elasticsearch cluster: which indices exist, the
stored documents keyed by (index, id), and whether the cluster is
reachable (`check_elasticsearch_connection`). -/
structure EsState where
  indices : List String := []
  docs : List (String × String × EsDoc) := []
  connected : Bool := true
deriving Repr, DecidableEq

/-- Test for `es.indices.exists(index=ix)`. -/
def EsState.indexExists (st : EsState) (ix : String) : Bool :=
  st.indices.contains ix

/-- Effect of `create_index` (`elasticsearch_service.py` line 103): records
the index; stored documents are untouched. -/
def EsState.createIndex (st : EsState) (ix : String) : EsState :=
  if st.indexExists ix then st else { st with indices := ix :: st.indices }

/-- Effect of `es.index(index=ix, id=docId, document=doc)`: upsert by id. -/
def EsState.upsert (st : EsState) (ix docId : String) (doc : EsDoc) : EsState :=
  { st with docs :=
      (ix, docId, doc) :: st.docs.filter (fun e => !(e.1 == ix && e.2.1 == docId)) }

/-- Effect of `es.delete(index=ix, id=docId, ignore=[404])`. -/
def EsState.deleteDoc (st : EsState) (ix docId : String) : EsState :=
  { st with docs := st.docs.filter (fun e => !(e.1 == ix && e.2.1 == docId)) }

/-- Result of `es.get(index=ix, id=docId)`: `none` models the 404 / raised
exception path. -/
def EsState.getDoc (st : EsState) (ix docId : String) : Option EsDoc :=
  (st.docs.find? (fun e => e.1 == ix && e.2.1 == docId)).map (fun e => e.2.2)

/-- Input record for `index_company_card`: a Python dict read with `.get`,
so every field is optional (`none` models both a missing key and `None`). -/
structure CompanyData where
  id : Option String := none
  name : Option String := none
  industry : Option String := none
  description : Option String := none
  founded : Option String := none
  location : Option String := none
  website : Option String := none
  linkedin_url : Option String := none
deriving Repr, DecidableEq

/-- Searchable content built by `index_company_card` (`elasticsearch_service.py`
lines 143-153): the truthy values of name, industry, description, location
joined with spaces. -/
def companySearchableContent (d : CompanyData) : String :=
  String.intercalate " "
    ([d.name, d.industry, d.description, d.location].filterMap truthy)

/-- Embedding of `index_company_card` (`elasticsearch_service.py` lines
130-179).  Returns the Python return value and the Elasticsearch state
after the call; `now` stands for `datetime.now().isoformat()`. -/
def index_company_card (now : String) (company_data : CompanyData) (st : EsState) :
    Bool × EsState :=
  let st1 := if st.indexExists INDEX_COMPANIES then st
             else st.createIndex INDEX_COMPANIES
  match truthy company_data.id with
  | none => (false, st1)
  | some company_id =>
    let doc : EsDoc :=
      { id := company_id
        card_id := company_id
        card_type := some "company"
        title := company_data.name.getD ""
        content := companySearchableContent company_data
        metadata := [("name", company_data.name), ("industry", company_data.industry),
                     ("description", company_data.description), ("founded", company_data.founded),
                     ("location", company_data.location), ("website", company_data.website),
                     ("linkedin_url", company_data.linkedin_url)]
        created_at := now
        updated_at := now }
    (true, st1.upsert INDEX_COMPANIES company_id doc)

/-- Input record for `index_person_card`, again a dict of optional fields. -/
structure PersonData where
  id : Option String := none
  name : Option String := none
  designation : Option String := none
  company : Option String := none
  linkedin_id : Option String := none
  linkedin_url : Option String := none
  education : Option String := none
  experience_years : Option String := none
  location : Option String := none
deriving Repr, DecidableEq

/-- Searchable content built by `index_person_card` (`elasticsearch_service.py`
lines 195-207). -/
def personSearchableContent (d : PersonData) : String :=
  String.intercalate " "
    ([d.name, d.designation, d.company, d.education, d.location].filterMap truthy)

/-- Embedding of `index_person_card` (`elasticsearch_service.py` lines
182-234). -/
def index_person_card (now : String) (person_data : PersonData) (st : EsState) :
    Bool × EsState :=
  let st1 := if st.indexExists INDEX_PERSONS then st
             else st.createIndex INDEX_PERSONS
  match truthy person_data.id with
  | none => (false, st1)
  | some person_id =>
    let doc : EsDoc :=
      { id := person_id
        card_id := person_id
        card_type := some "person"
        title := person_data.name.getD ""
        content := personSearchableContent person_data
        metadata := [("name", person_data.name), ("designation", person_data.designation),
                     ("company", person_data.company), ("linkedin_id", person_data.linkedin_id),
                     ("linkedin_url", person_data.linkedin_url), ("education", person_data.education),
                     ("experience_years", person_data.experience_years),
                     ("location", person_data.location)]
        created_at := now
        updated_at := now }
    (true, st1.upsert INDEX_PERSONS person_id doc)

/-- Card metadata dict handed to `index_note` by `save_note`
(`notes_service.py` lines 56-71): optional attribute values of the parent
card. -/
structure CardMeta where
  name : Option String := none
  industry : Option String := none
  location : Option String := none
  description : Option String := none
  company : Option String := none
  designation : Option String := none
  education : Option String := none
deriving Repr, DecidableEq

/-- Context lines appended to the note text by `index_note`
(`elasticsearch_service.py` lines 698-710). -/
def noteContextParts (card_type : String) (card_metadata : Option CardMeta) : List String :=
  match card_metadata with
  | none => []
  | some m =>
    if card_type = "company" then
      match truthy m.name with
      | some n =>
        ["Company: " ++ n] ++
          (match truthy m.industry with
           | some i => ["Industry: " ++ i]
           | none => [])
      | none => []
    else if card_type = "person" then
      match truthy m.name with
      | some n =>
        ["Person: " ++ n] ++
          (match truthy m.company with
           | some c => ["Company: " ++ c]
           | none => []) ++
          (match truthy m.designation with
           | some d => ["Designation: " ++ d]
           | none => [])
      | none => []
    else []

/-- Note metadata built by `index_note` (`elasticsearch_service.py` lines
717-739). -/
def noteMetadata (card_id card_type : String) (card_metadata : Option CardMeta) : Metadata :=
  [("card_id", some card_id), ("card_type", some card_type)] ++
    (match card_metadata with
     | none => []
     | some m =>
       if card_type = "company" then
         [("company_name", m.name), ("industry", m.industry),
          ("location", m.location), ("description", m.description)]
       else if card_type = "person" then
         [("person_name", m.name), ("company", m.company),
          ("designation", m.designation), ("education", m.education),
          ("location", m.location)]
       else [])

/-- Embedding of `index_note` (`elasticsearch_service.py` lines 686-760).
`embed` stands for `generate_embedding`; returning `none` models the
embedding call raising, which the enclosing `try` turns into `False`. -/
def index_note (embed : String → Option (List Rat)) (now : String)
    (card_id note card_type : String) (card_metadata : Option CardMeta)
    (st : EsState) : Bool × EsState :=
  let st1 := if st.indexExists INDEX_NOTES then st else st.createIndex INDEX_NOTES
  if note = "" ∨ pyStrip note = "" then
    (true, st1.deleteDoc INDEX_NOTES ("note_" ++ card_id))
  else
    let searchable_content :=
      String.intercalate " " (note :: noteContextParts card_type card_metadata)
    match embed searchable_content with
    | none => (false, st1)
    | some embedding =>
      let titleName :=
        match card_metadata with
        | some m => m.name.getD card_id
        | none => card_id
      let doc : EsDoc :=
        { id := "note_" ++ card_id
          card_id := card_id
          title := "Note for " ++ titleName
          content := searchable_content
          text_embedding := some embedding
          metadata := noteMetadata card_id card_type card_metadata ++ [("note_text", some note)]
          created_at := now
          updated_at := now }
      (true, st1.upsert INDEX_NOTES ("note_" ++ card_id) doc)

/-- Embedding of `get_note` (`notes_service.py` lines 13-35): empty string
when the cluster is unreachable or the note document is absent, otherwise
the stored `note_text` metadata, with the legacy fallback that strips the
appended card context from `content`. -/
def get_note (card_id : String) (st : EsState) : String :=
  if !st.connected then ""
  else
    match st.getDoc INDEX_NOTES ("note_" ++ card_id) with
    | none => ""
    | some doc =>
      match metaLookup doc.metadata "note_text" with
      | some (some t) => t
      | some none => ""
      | none =>
        pyStrip ((pySplit ((pySplit ((pySplit doc.content "Company:").headD "")
          "Person:").headD "") "Industry:").headD "")

/-- Keyword part of the hybrid document query
(`elasticsearch_service.py` lines 580-587). -/
structure KeywordQuery where
  query : String
  fields : List String
  match_type : String
  fuzziness : String
deriving Repr, DecidableEq

/-- The `knn` clause of the hybrid body (`elasticsearch_service.py` lines
600-606). -/
structure KnnClause where
  field : String
  query_vector : List Rat
  k : Nat
  num_candidates : Nat
  boost : Rat
deriving Repr, DecidableEq

/-- Search body sent by `hybrid_search` to the documents index:
`keyword_boost` is the `boost: 1.0` on the bool wrapper, present only in
the hybrid variant. -/
structure HybridBody where
  knn : Option KnnClause
  keyword : KeywordQuery
  keyword_boost : Option Rat
  size : Nat
deriving Repr, DecidableEq

/-- The always-used BM25 keyword query of `hybrid_search`
(`elasticsearch_service.py` lines 580-587). -/
def hybrid_keyword_query (query : String) : KeywordQuery :=
  { query := query
    fields := ["title^3", "content^2"]
    match_type := "best_fields"
    fuzziness := "AUTO" }

/-- Keyword-only fallback body (`elasticsearch_service.py` lines 625-636). -/
def keyword_only_body (query : String) (limit : Nat) : HybridBody :=
  { knn := none
    keyword := hybrid_keyword_query query
    keyword_boost := none
    size := limit }

/-- Body selection of `hybrid_search` (`elasticsearch_service.py` lines
596-636): the hybrid body is used only when an embedding was produced and
is non-empty (`if query_embedding and len(query_embedding) > 0`). -/
def hybrid_search_body (query : String) (query_embedding : Option (List Rat))
    (limit : Nat) : HybridBody :=
  match query_embedding with
  | some v =>
    if v.length > 0 then
      { knn := some { field := "text_embedding", query_vector := v, k := limit,
                      num_candidates := limit * 2, boost := (1 : Rat) / 2 }
        keyword := hybrid_keyword_query query
        keyword_boost := some 1
        size := limit }
    else keyword_only_body query limit
  | none => keyword_only_body query limit

/-- An Elasticsearch hit as the search functions read it: `_source` fields
plus `_score`. -/
structure SourceHit where
  id : String
  card_id : String
  title : String
  content : String
  metadata : Metadata
  score : Rat
deriving Repr, DecidableEq

/-- Result dict built by `hybrid_search` for each document hit
(`elasticsearch_service.py` lines 645-658). -/
structure DocResult where
  id : String
  card_type : String
  card_id : String
  title : String
  content : String
  metadata : Metadata
  score : Rat
  index : String
deriving Repr, DecidableEq

/-- Mapping of one documents-index hit to the result dict
(`elasticsearch_service.py` lines 645-658). -/
def docHitToResult (h : SourceHit) : DocResult :=
  { id := h.id, card_type := "document", card_id := h.card_id, title := h.title,
    content := h.content, metadata := h.metadata, score := h.score,
    index := INDEX_DOCUMENTS }

/-- The `all_results` list of `hybrid_search` (`elasticsearch_service.py`
lines 639-661): the documents-index response mapped to result dicts, or
empty when the per-index search raised (`none` from the oracle). -/
def hybrid_all_results (query : String) (query_embedding : Option (List Rat))
    (esSearch : HybridBody → Option (List SourceHit)) (limit : Nat) : List DocResult :=
  match esSearch (hybrid_search_body query query_embedding limit) with
  | some hits => hits.map docHitToResult
  | none => []

/-- Replacement rule of the `card_results` dict loop: the stored entry `h`
for a card is replaced by the incoming `r` exactly when `r` scores
strictly higher (`elasticsearch_service.py` lines 672-674). -/
def replaceIfBetter (r h : DocResult) : DocResult :=
  if h.card_id == r.card_id && decide (h.score < r.score) then r else h

/-- One step of the `card_results` dict loop (`elasticsearch_service.py`
lines 665-674): Python dicts keep insertion order and replacing a value
keeps the key's position, so the dict is an association list here. -/
def dictUpsertMax (acc : List DocResult) (r : DocResult) : List DocResult :=
  if acc.any (fun h => h.card_id == r.card_id) then acc.map (replaceIfBetter r)
  else acc ++ [r]

/-- The chunk-aggregation loop of `hybrid_search`: group by `card_id`,
keeping the highest-scoring chunk per card (strict `>` keeps the earlier
chunk on ties, as in the source). -/
def hybridAggregate (results : List DocResult) : List DocResult :=
  results.foldl dictUpsertMax []

/-- Comparator of the final `aggregated_results.sort(key=score,
reverse=True)`: descending by score, stable. -/
def hybridSortLe (a b : DocResult) : Bool :=
  decide (b.score ≤ a.score)

/-- Embedding of `hybrid_search` (`elasticsearch_service.py` lines
572-683): build the body from the embedding outcome, collect the
documents-index hits, aggregate per card, sort descending by score and
truncate to `limit`. -/
def hybrid_search (query : String) (query_embedding : Option (List Rat))
    (esSearch : HybridBody → Option (List SourceHit)) (limit : Nat) : List DocResult :=
  let all_results := hybrid_all_results query query_embedding esSearch limit
  let aggregated_results := (hybridAggregate all_results).mergeSort hybridSortLe
  aggregated_results.take limit

/-- One `should` clause of the structured entity / note search bodies.
`clause_kind` is the Elasticsearch query kind and `match_type` its `type`
option (multi_match only). -/
structure QueryClause where
  clause_kind : String
  match_type : Option String
  query : String
  fields : List String
  fuzziness : Option String
  boost : Rat
deriving Repr, DecidableEq

/-- A `bool`/`should` search body with its `minimum_should_match` and
`size`. -/
structure BoolSearchBody where
  should : List QueryClause
  minimum_should_match : Nat
  size : Nat
deriving Repr, DecidableEq

/-- Search body of `search_companies_es` (`elasticsearch_service.py` lines
346-389). -/
def companies_search_body (query : String) (limit : Nat) : BoolSearchBody :=
  { should :=
      [{ clause_kind := "multi_match", match_type := some "phrase_prefix",
         query := query, fields := ["title^3", "content^2"], fuzziness := none,
         boost := 3 },
       { clause_kind := "multi_match", match_type := some "best_fields",
         query := query, fields := ["title^3", "content^2"], fuzziness := none,
         boost := 2 },
       { clause_kind := "multi_match", match_type := some "best_fields",
         query := query, fields := ["title^2", "content"], fuzziness := some "AUTO",
         boost := 1 }]
    minimum_should_match := 1
    size := limit }

/-- Search body of `search_persons_es` (`elasticsearch_service.py` lines
425-468), textually identical to the companies body. -/
def persons_search_body (query : String) (limit : Nat) : BoolSearchBody :=
  { should :=
      [{ clause_kind := "multi_match", match_type := some "phrase_prefix",
         query := query, fields := ["title^3", "content^2"], fuzziness := none,
         boost := 3 },
       { clause_kind := "multi_match", match_type := some "best_fields",
         query := query, fields := ["title^3", "content^2"], fuzziness := none,
         boost := 2 },
       { clause_kind := "multi_match", match_type := some "best_fields",
         query := query, fields := ["title^2", "content"], fuzziness := some "AUTO",
         boost := 1 }]
    minimum_should_match := 1
    size := limit }

/-- Search body of `search_notes_es` (`elasticsearch_service.py` lines
504-546): plain `match` on content boosted 3.0, `match_phrase_prefix` on
content boosted 2.5, fuzzy `match` on content boosted 1.0. -/
def notes_search_body (query : String) (limit : Nat) : BoolSearchBody :=
  { should :=
      [{ clause_kind := "match", match_type := none,
         query := query, fields := ["content"], fuzziness := none,
         boost := 3 },
       { clause_kind := "match_phrase_prefix", match_type := none,
         query := query, fields := ["content"], fuzziness := none,
         boost := 5 / 2 },
       { clause_kind := "match", match_type := none,
         query := query, fields := ["content"], fuzziness := some "AUTO",
         boost := 1 }]
    minimum_should_match := 1
    size := limit }

/-- Result dict built by the three card search functions
(`elasticsearch_service.py` lines 397-407, 476-486, 553-564). -/
structure CardResult where
  id : String
  card_id : String
  card_type : String
  title : String
  content : String
  metadata : Metadata
  score : Rat
deriving Repr, DecidableEq

/-- Shared tail of the three card search functions: check the index exists,
run the search (the oracle returning `none` models the raised exception the
enclosing `try` turns into `[]`), and map hits to result dicts.  The second
component records whether a search request was issued to the engine. -/
def runCardSearch (st : EsState) (esSearch : String → BoolSearchBody → Option (List SourceHit))
    (ix : String) (body : BoolSearchBody) (ctype : String) : List CardResult × Bool :=
  if !st.indexExists ix then ([], false)
  else
    match esSearch ix body with
    | none => ([], true)
    | some hits =>
      (hits.map (fun h =>
        { id := h.id, card_id := h.card_id, card_type := ctype, title := h.title,
          content := h.content, metadata := h.metadata, score := h.score }), true)

/-- Embedding of `search_companies_es` (`elasticsearch_service.py` lines
336-412).  Returns the result list and whether any search was issued. -/
def search_companies_es (st : EsState)
    (esSearch : String → BoolSearchBody → Option (List SourceHit))
    (query : String) (limit : Nat) : List CardResult × Bool :=
  if query = "" ∨ pyStrip query = "" then ([], false)
  else runCardSearch st esSearch INDEX_COMPANIES (companies_search_body query limit) "company"

/-- Embedding of `search_persons_es` (`elasticsearch_service.py` lines
415-491). -/
def search_persons_es (st : EsState)
    (esSearch : String → BoolSearchBody → Option (List SourceHit))
    (query : String) (limit : Nat) : List CardResult × Bool :=
  if query = "" ∨ pyStrip query = "" then ([], false)
  else runCardSearch st esSearch INDEX_PERSONS (persons_search_body query limit) "person"

/-- Embedding of `search_notes_es` (`elasticsearch_service.py` lines
494-569). -/
def search_notes_es (st : EsState)
    (esSearch : String → BoolSearchBody → Option (List SourceHit))
    (query : String) (limit : Nat) : List CardResult × Bool :=
  if query = "" ∨ pyStrip query = "" then ([], false)
  else runCardSearch st esSearch INDEX_NOTES (notes_search_body query limit) "note"

/-- Parse of an Elasticsearch percentage token such as `"100%"`. -/
def parseMsmPercent (s : String) : Option Nat :=
  if s.data.getLast? = some '%' then parseNatChars s.data.dropLast else none

/-- Interpretation of an Elasticsearch `minimum_should_match` specification
for `n` optional clauses, following the engine's documented semantics for
the forms the repository uses: a bare non-negative integer `k` requires
`k` clauses; a percentage `p%` requires `p` percent of the clauses,
rounded down; a combination `c<spec` requires all clauses when `n ≤ c`
and applies `spec` otherwise.  Elasticsearch is the external index engine
this code targets; this definition is its interface contract, not
repository code. -/
def esMinimumRequired (spec : String) (n : Nat) : Option Nat :=
  match pySplit spec "<" with
  | [single] =>
    match parseNatChars single.data with
    | some k => some k
    | none => (parseMsmPercent single).map (fun p => p * n / 100)
  | [condStr, pctStr] =>
    match parseNatChars condStr.data, parseMsmPercent pctStr with
    | some c, some p => some (if n ≤ c then n else p * n / 100)
    | _, _ => none
  | _ => none

/-- Number of clauses an optional `minimum_should_match` setting requires
out of `n`: when the setting is absent and the clauses are OR-combined,
Elasticsearch requires one matching clause. -/
def effectiveMinimumRequired (msm : Option String) (n : Nat) : Option Nat :=
  match msm with
  | none => some 1
  | some s => esMinimumRequired s n

/-- The `multi_match` body shape built by `search_standard_tables`
(`chat_service.py` lines 121-145). -/
structure StdMultiMatchBody where
  query : String
  fields : List String
  fuzziness : Option String
  minimum_should_match : Option String
  operator : Option String
  size : Nat
deriving Repr, DecidableEq

/-- The strict entity-search body `body_strict` (`chat_service.py` lines
122-132). -/
def body_strict (keywords : String) : StdMultiMatchBody :=
  { query := keywords
    fields := ["*"]
    fuzziness := some "AUTO"
    minimum_should_match := some "2<100%"
    operator := none
    size := 10 }

/-- The loose note-search body `body_loose` (`chat_service.py` lines
135-145). -/
def body_loose (keywords : String) : StdMultiMatchBody :=
  { query := keywords
    fields := ["content", "title", "metadata.*"]
    fuzziness := some "AUTO"
    minimum_should_match := none
    operator := some "or"
    size := 15 }

/-- A hit `_source` as `search_standard_tables` reads it: every field read
with `.get`, so all optional. -/
structure StdHit where
  name : Option String := none
  title : Option String := none
  content : Option String := none
  note : Option String := none
  metadata : Metadata := []
deriving Repr, DecidableEq

/-- Person line formatting of `search_standard_tables` (`chat_service.py`
lines 150-156). -/
def format_person_hit (s : StdHit) : String :=
  let name := orStr s.name (orStr s.title "Unknown")
  "PERSON: " ++ name ++
    "\n   - Title: " ++ metaGetD s.metadata "designation" "N/A" ++
    "\n   - Company: " ++ metaGetD s.metadata "company" "N/A" ++
    "\n   - Location: " ++ metaGetD s.metadata "location" "N/A" ++
    "\n   - Education: " ++ metaGetD s.metadata "education" "N/A"

/-- Company line formatting of `search_standard_tables` (`chat_service.py`
lines 162-168). -/
def format_company_hit (s : StdHit) : String :=
  let name := orStr s.name (orStr s.title "Unknown")
  "COMPANY: " ++ name ++
    "\n   - Industry: " ++ metaGetD s.metadata "industry" "N/A" ++
    "\n   - Location: " ++ metaGetD s.metadata "location" "N/A" ++
    "\n   - Founded: " ++ metaGetD s.metadata "founded" "N/A" ++
    "\n   - Description: " ++ metaGetD s.metadata "description" "N/A"

/-- Note line formatting of `search_standard_tables` (`chat_service.py`
lines 174-183). -/
def format_note_hit (s : StdHit) : String :=
  let content := orStr s.content (orStr s.note "No content")
  let owner :=
    match metaTruthy s.metadata "person_name" with
    | some n => n
    | none =>
      match metaTruthy s.metadata "company_name" with
      | some n => n
      | none => s.title.getD "Unknown Entity"
  "NOTE for " ++ owner ++ ": " ++ content

/-- Oracles for the three `es.search` calls of `search_standard_tables`;
`none` models the call raising, which the per-call `except: pass`
swallows. -/
structure StdSearchEnv where
  connected : Bool
  esSearchPersons : StdMultiMatchBody → Option (List StdHit)
  esSearchCompanies : StdMultiMatchBody → Option (List StdHit)
  esSearchNotes : StdMultiMatchBody → Option (List StdHit)

/-- Embedding of `search_standard_tables` (`chat_service.py` lines
109-189): returns the `entities` and `notes` context strings. -/
def search_standard_tables (env : StdSearchEnv) (keywords : String) : String × String :=
  if keywords = "" ∨ !env.connected then ("", "")
  else
    let entity_results :=
      (match env.esSearchPersons (body_strict keywords) with
       | some hits => hits.map format_person_hit
       | none => []) ++
      (match env.esSearchCompanies (body_strict keywords) with
       | some hits => hits.map format_company_hit
       | none => [])
    let note_results :=
      match env.esSearchNotes (body_loose keywords) with
      | some hits => hits.map format_note_hit
      | none => []
    (String.intercalate "\n\n" entity_results, String.intercalate "\n" note_results)

/-- Error message of `get_chat_model` when `GROQ_API_KEY` is unset
(`chat_service.py` line 35); the raise happens outside any local `try`. -/
def groqKeyErrorMsg : String := "GROQ_API_KEY environment variable is not set."

/-- A parsed planner response: the three keys the pipeline reads with
`.get`, each possibly absent. -/
structure ParsedPlan where
  entity_keywords : Option String := none
  document_query : Option String := none
  web_query : Option String := none
deriving Repr, DecidableEq

/-- Fallback plan of `agent_generate_queries` (`chat_service.py` lines
94-98): all three fields are the raw user question. -/
def fallback_plan (user_question : String) : ParsedPlan :=
  { entity_keywords := some user_question
    document_query := some user_question
    web_query := some user_question }

/-- Code-fence stripping of `agent_generate_queries` (`chat_service.py`
lines 87-90). -/
def stripCodeFence (content : String) : String :=
  if (pySplit content "```json").length > 1 then
    (pySplit ((pySplit content "```json").getD 1 "") "```").getD 0 ""
  else if (pySplit content "```").length > 1 then
    (pySplit ((pySplit content "```").getD 1 "") "```").getD 0 ""
  else content

/-- The guarded part of `agent_generate_queries` (`chat_service.py` lines
84-98): LLM call, fence stripping, JSON parse, with the raw question as
fallback on any failure.  `ainvoke` is the LLM oracle and `jsonLoads` the
(external) JSON parser, each `Except.error` modelling a raised
exception. -/
def planner_result (ainvoke : Except String String)
    (jsonLoads : String → Except String ParsedPlan) (user_question : String) : ParsedPlan :=
  match (do
      let response ← ainvoke
      jsonLoads (stripCodeFence (pyStrip response)) : Except String ParsedPlan) with
  | Except.ok plan => plan
  | Except.error _ => fallback_plan user_question

/-- Embedding of `agent_generate_queries` (`chat_service.py` lines 43-98).
The `get_chat_model` call on line 48 sits before the `try` block, so a
missing `GROQ_API_KEY` propagates as an exception (`Except.error`); once
the model exists, any LLM-call or parse failure falls back to the raw
question. -/
def agent_generate_queries (groqKey : Option String) (ainvoke : Except String String)
    (jsonLoads : String → Except String ParsedPlan) (user_question : String) :
    Except String ParsedPlan :=
  match groqKey with
  | none => Except.error groqKeyErrorMsg
  | some _ => Except.ok (planner_result ainvoke jsonLoads user_question)

/-- Environment of one `chat_with_ai` call: the `GROQ_API_KEY` setting and
the outcomes of every external collaborator the pipeline consults. -/
structure ChatEnv where
  groqKey : Option String
  plannerLLM : Except String String
  plannerParse : String → Except String ParsedPlan
  std : StdSearchEnv
  docSearch : HybridBody → Option (List SourceHit)
  embedding : Option (List Rat)
  webSearch : String → String
  synthLLM : String → Except String String

/-- The plan `chat_with_ai` works with once the planner model exists
(`chat_service.py` lines 200-203). -/
def chat_plan (env : ChatEnv) (message : String) : ParsedPlan :=
  planner_result env.plannerLLM env.plannerParse message

/-- The `web_query` value (`chat_service.py` line 203). -/
def chat_web_query (env : ChatEnv) (message : String) : String :=
  (chat_plan env message).web_query.getD message

/-- Entity and notes contexts (`chat_service.py` lines 208-210). -/
def chat_entity_notes (env : ChatEnv) (message : String) : String × String :=
  search_standard_tables env.std ((chat_plan env message).entity_keywords.getD message)

/-- Document results (`chat_service.py` lines 213-216): hybrid search with
limit 5, only when the cluster is reachable. -/
def chat_doc_results (env : ChatEnv) (message : String) : List DocResult :=
  if env.std.connected then
    hybrid_search ((chat_plan env message).document_query.getD message)
      env.embedding env.docSearch 5
  else []

/-- Document context (`chat_service.py` lines 218-225). -/
def chat_doc_context (env : ChatEnv) (message : String) : String :=
  let doc_results := chat_doc_results env message
  if doc_results.isEmpty then ""
  else
    String.intercalate "\n\n"
      ((doc_results.filter (fun r => r.card_type == "document")).map
        (fun r => "[Document File] Title: " ++ r.title ++ "\nContent: " ++ r.content.take 800))

/-- The web-fallback decision of `chat_with_ai` (`chat_service.py` lines
227-240): web search runs only when all three internal contexts are blank
after stripping and the planner's web query is truthy with length > 3.
Returns the web context and how many times `perform_web_search` ran. -/
def chat_web (env : ChatEnv) (message : String) : String × Nat :=
  if ¬pyStrip (chat_entity_notes env message).1 ≠ "" ∧
     ¬pyStrip (chat_entity_notes env message).2 ≠ "" ∧
     ¬pyStrip (chat_doc_context env message) ≠ "" then
    if chat_web_query env message ≠ "" ∧ (chat_web_query env message).length > 3 then
      (env.webSearch (chat_web_query env message), 1)
    else ("", 0)
  else ("", 0)

/-- Assembled context block (`chat_service.py` lines 243-255), with each
empty source rendered as its explicit "no results" sentence. -/
def chat_final_context (env : ChatEnv) (message : String) : String :=
  let entity_context := (chat_entity_notes env message).1
  let notes_context := (chat_entity_notes env message).2
  let doc_context := chat_doc_context env message
  let web_context := (chat_web env message).1
  "=== DATABASE RECORDS (Internal - High Confidence) ===\n" ++
    (if entity_context ≠ "" then entity_context else "No direct matches.") ++
    "\n\n=== INTERNAL NOTES (Meetings) ===\n" ++
    (if notes_context ≠ "" then notes_context else "No notes found.") ++
    "\n\n=== DOCUMENTS (Uploaded Files - Context Only) ===\n" ++
    (if doc_context ≠ "" then doc_context else "No relevant files.") ++
    "\n\n=== WEB SEARCH RESULTS (Public Knowledge) ===\n" ++
    (if web_context ≠ "" then web_context else "No web results.")

/-- Embedding of `chat_with_ai` (`chat_service.py` lines 191-311).  The
whole pipeline sits in one `try`; the only failure points not absorbed
further down are the two `get_chat_model` calls (missing `GROQ_API_KEY`,
raised from the planner on line 48 before its local `try`) and the final
synthesis LLM call.  The top-level `except` renders any of them as the
apology string.  Returns the answer and the number of
`perform_web_search` invocations. -/
def chat_with_ai (env : ChatEnv) (message : String) : String × Nat :=
  match env.groqKey with
  | none => ("I encountered an error. Details: " ++ groqKeyErrorMsg, 0)
  | some _ =>
    let webCalls := (chat_web env message).2
    match env.synthLLM (chat_final_context env message) with
    | Except.ok answer => (answer, webCalls)
    | Except.error e => ("I encountered an error. Details: " ++ e, webCalls)

/-- Reading of the strict `minimum_should_match` rule as the specification
words it (for comparison with `esMinimumRequired`): at least 2 matching
clauses, or all of them when there are fewer than 2. -/
def spec_strict_required (n : Nat) : Nat :=
  if n < 2 then n else 2

/-- Invariant of the per-card aggregation loop of `hybrid_search`: the
accumulator `acc` has pairwise distinct `card_id`s, each of its entries is
a processed hit of maximum score among the processed hits sharing its
`card_id`, and every processed hit's `card_id` is represented. -/
structure AggInv (P acc : List DocResult) : Prop where
  nodupKeys : (acc.map DocResult.card_id).Nodup
  sound : ∀ a ∈ acc, a ∈ P ∧ ∀ h ∈ P, h.card_id = a.card_id → h.score ≤ a.score
  complete : ∀ h ∈ P, ∃ a ∈ acc, a.card_id = h.card_id

/-- Concrete document chunk hits for witnesses: two chunks of one card and
one chunk of another. -/
def wDocHits : List SourceHit :=
  [{ id := "doc_card_1_f.pdf_chunk_0", card_id := "card_1",
     title := "f.pdf (chunk 1)", content := "alpha", metadata := [], score := 2 },
   { id := "doc_card_1_f.pdf_chunk_1", card_id := "card_1",
     title := "f.pdf (chunk 2)", content := "beta", metadata := [], score := 5 },
   { id := "doc_card_2_g.pdf_chunk_0", card_id := "card_2",
     title := "g.pdf (chunk 1)", content := "gamma", metadata := [], score := 3 }]

/-- Concrete documents-index oracle for witnesses. -/
def wDocSearch : HybridBody → Option (List SourceHit) :=
  fun _ => some wDocHits

/-- Concrete standard-search environment for witnesses: cluster
unreachable, so both context strings come back empty. -/
def emptyStdEnv : StdSearchEnv :=
  { connected := false
    esSearchPersons := fun _ => none
    esSearchCompanies := fun _ => none
    esSearchNotes := fun _ => none }

/-- Concrete chat environment for witnesses: planner LLM down (so the plan
falls back to the raw message), no internal data, web search returning a
result, synthesis succeeding. -/
def webChatEnv : ChatEnv :=
  { groqKey := some "k"
    plannerLLM := Except.error "llm down"
    plannerParse := fun _ => Except.error "unused"
    std := emptyStdEnv
    docSearch := fun _ => none
    embedding := none
    webSearch := fun _ => "• [Web Result] Tim Cook is the CEO of Apple."
    synthLLM := fun _ => Except.ok "Based on web search, Tim Cook." }

/-- Chat environment whose synthesis call raises. -/
def errChatEnv : ChatEnv :=
  { webChatEnv with synthLLM := fun _ => Except.error "boom" }

/-- Chat environment with `GROQ_API_KEY` unset. -/
def noKeyChatEnv : ChatEnv :=
  { webChatEnv with groqKey := none }

/-- Concrete pre-existing note document for the C7 witness. -/
def wNoteDoc : EsDoc :=
  { id := "note_card_1", card_id := "card_1", title := "Note for Acme",
    content := "old note Company: Acme", metadata := [("note_text", some "old note")] }

/-- Concrete Elasticsearch state holding that note. -/
def wNoteState : EsState :=
  { indices := [INDEX_NOTES]
    docs := [(INDEX_NOTES, "note_card_1", wNoteDoc)]
    connected := true }

theorem createIndex_docs (st : EsState) (ix : String) :
    (st.createIndex ix).docs = st.docs := by
  unfold EsState.createIndex
  split <;> rfl

theorem createIndex_connected (st : EsState) (ix : String) :
    (st.createIndex ix).connected = st.connected := by
  unfold EsState.createIndex
  split <;> rfl

theorem deleteDoc_getDoc (st : EsState) (ix docId : String) :
    (st.deleteDoc ix docId).getDoc ix docId = none := by
  simp [EsState.deleteDoc, EsState.getDoc, List.find?_eq_none]
  intro a a1 b hmem hor ha
  tauto

/-- C10: blank queries short-circuit all three card searches. -/
theorem C10_blank_query_no_search (st : EsState)
    (esSearch : String → BoolSearchBody → Option (List SourceHit))
    (query : String) (limit : Nat) (h : pyStrip query = "") :
    search_companies_es st esSearch query limit = ([], false) ∧
    search_persons_es st esSearch query limit = ([], false) ∧
    search_notes_es st esSearch query limit = ([], false) := by
  refine ⟨?_, ?_, ?_⟩ <;>
    simp [search_companies_es, search_persons_es, search_notes_es, h]

theorem C10_witness :
    (pyStrip "  " = "") ∧
    search_companies_es {} (fun _ _ => none) "  " 50 = ([], false) ∧
    search_persons_es {} (fun _ _ => none) "  " 50 = ([], false) ∧
    search_notes_es {} (fun _ _ => none) "  " 50 = ([], false) :=
  ⟨by decide, C10_blank_query_no_search {} (fun _ _ => none) "  " 50 (by decide)⟩

/-- C6: a company or person record whose `id` is missing or empty is
rejected: indexing returns `False` and stores no document. -/
theorem C6_missing_id_rejected (now : String) (c : CompanyData) (p : PersonData)
    (stC stP : EsState)
    (hc : c.id = none ∨ c.id = some "") (hp : p.id = none ∨ p.id = some "") :
    (index_company_card now c stC).1 = false ∧
    (index_company_card now c stC).2.docs = stC.docs ∧
    (index_person_card now p stP).1 = false ∧
    (index_person_card now p stP).2.docs = stP.docs := by
  have hc' : truthy c.id = none := by rcases hc with h | h <;> simp [truthy, h]
  have hp' : truthy p.id = none := by rcases hp with h | h <;> simp [truthy, h]
  refine ⟨?_, ?_, ?_, ?_⟩ <;>
    simp [index_company_card, index_person_card, hc', hp'] <;>
    split <;> simp [createIndex_docs]

theorem C6_witness :
    ((index_company_card "t0" { name := some "Acme" } {}).1 = false ∧
     (index_company_card "t0" { name := some "Acme" } {}).2.docs = ({} : EsState).docs ∧
     (index_person_card "t0" { id := some "", name := some "Ada" } {}).1 = false ∧
     (index_person_card "t0" { id := some "", name := some "Ada" } {}).2.docs =
       ({} : EsState).docs) :=
  C6_missing_id_rejected "t0" { name := some "Acme" } { id := some "", name := some "Ada" }
    {} {} (Or.inl rfl) (Or.inr rfl)

/-- C3 counterexample: the strict entity-search body fixes
`minimum_should_match` to `"2<100%"`; at 3 optional clauses Elasticsearch
then requires all 3 matching clauses, not the "at least 2" the claim
states. -/
theorem C3_counterexample :
    (body_strict "Boston fintech 2020").minimum_should_match = some "2<100%" ∧
    esMinimumRequired "2<100%" 3 = some 3 ∧
    spec_strict_required 3 = 2 ∧ (3 : Nat) ≠ 2 :=
  ⟨rfl, by decide, rfl, by decide⟩

/-- C3 (amended): the strict variant's `"2<100%"` requires all `n` optional
clauses for every clause count `n ≥ 1` (all of them when `n ≤ 2`, and 100%
— again all — otherwise), agreeing with the claim's reading only for
`n ≤ 2`; the loose notes variant, with no `minimum_should_match` and OR
semantics, requires exactly 1. -/
theorem C3_minimum_should_match (keywords : String) (n : Nat) (h : 1 ≤ n) :
    effectiveMinimumRequired (body_strict keywords).minimum_should_match n = some n ∧
    effectiveMinimumRequired (body_loose keywords).minimum_should_match n = some 1 ∧
    (n ≤ 2 →
      effectiveMinimumRequired (body_strict keywords).minimum_should_match n =
        some (spec_strict_required n)) := by
  have hstep : esMinimumRequired "2<100%" n =
      some (if n ≤ 2 then n else 100 * n / 100) := rfl
  have hreq : esMinimumRequired "2<100%" n = some n := by
    rw [hstep]
    congr 1
    split
    · rfl
    · omega
  refine ⟨?_, rfl, ?_⟩
  · simpa [effectiveMinimumRequired, body_strict] using hreq
  · intro h2
    have : spec_strict_required n = n := by
      unfold spec_strict_required
      split <;> omega
    rw [this]
    simpa [effectiveMinimumRequired, body_strict] using hreq

theorem C3_witness :
    effectiveMinimumRequired (body_strict "Boston fintech 2020").minimum_should_match 3 =
      some 3 ∧
    effectiveMinimumRequired (body_loose "Boston fintech 2020").minimum_should_match 3 =
      some 1 :=
  ⟨(C3_minimum_should_match "Boston fintech 2020" 3 (by decide)).1,
   (C3_minimum_should_match "Boston fintech 2020" 3 (by decide)).2.1⟩

/-- C4 counterexample: the notes search does not reuse the entity scheme —
its middle tier is a phrase-prefix clause boosted 2.5, not a best-fields
clause boosted 2.0, and its top tier is a plain match, so the boost lists
of the two bodies differ. -/
theorem C4_counterexample :
    (notes_search_body "Acme" 50).should.map QueryClause.boost = [3, 5 / 2, 1] ∧
    (companies_search_body "Acme" 50).should.map QueryClause.boost = [3, 2, 1] ∧
    (notes_search_body "Acme" 50).should.map QueryClause.boost ≠
      (companies_search_body "Acme" 50).should.map QueryClause.boost := by
  refine ⟨rfl, rfl, fun h => ?_⟩
  have h1 := congrArg (fun l => l[1]?) h
  simp [notes_search_body, companies_search_body] at h1
  norm_num at h1

/-- C4 (amended): companies and persons share one query of three OR-unioned
tiers with minimum one matching clause — phrase-prefix boosted 3.0,
best-fields boosted 2.0, fuzzy best-fields boosted 1.0 — while notes apply
a different three-tier OR-combined scheme to note content only: plain
match boosted 3.0, phrase-prefix boosted 2.5, fuzzy match boosted 1.0. -/
theorem C4_three_tier_boosting (q : String) (limit : Nat) :
    persons_search_body q limit = companies_search_body q limit ∧
    (companies_search_body q limit).should.map
        (fun c => (c.clause_kind, c.match_type, c.fuzziness, c.boost)) =
      [("multi_match", some "phrase_prefix", (none : Option String), (3 : Rat)),
       ("multi_match", some "best_fields", none, 2),
       ("multi_match", some "best_fields", some "AUTO", 1)] ∧
    (companies_search_body q limit).minimum_should_match = 1 ∧
    (notes_search_body q limit).should.map (fun c => c.fields) =
      [["content"], ["content"], ["content"]] ∧
    (notes_search_body q limit).should.map
        (fun c => (c.clause_kind, c.fuzziness, c.boost)) =
      [("match", (none : Option String), (3 : Rat)),
       ("match_phrase_prefix", none, 5 / 2),
       ("match", some "AUTO", 1)] ∧
    (notes_search_body q limit).minimum_should_match = 1 :=
  ⟨rfl, rfl, rfl, rfl, rfl, rfl⟩

/-- C5 counterexample: with `GROQ_API_KEY` unset, `get_chat_model` raises
before the planner's `try` block is entered, so `agent_generate_queries`
propagates an exception instead of returning a fallback plan. -/
theorem C5_counterexample :
    agent_generate_queries none (Except.ok "{}")
        (fun _ => Except.error "parse failure") "Who funded Acme?" =
      Except.error "GROQ_API_KEY environment variable is not set." := rfl

/-- C5 (amended): once the chat model can be constructed (`GROQ_API_KEY`
set), `agent_generate_queries` never raises; whenever the guarded LLM call
or the JSON parse of its (stripped) response fails, the returned plan has
`entity_keywords`, `document_query` and `web_query` all equal to the raw
user question verbatim. -/
theorem C5_planner_fallback (apiKey : String) (ainvoke : Except String String)
    (jsonLoads : String → Except String ParsedPlan) (user_question : String) :
    (∃ plan, agent_generate_queries (some apiKey) ainvoke jsonLoads user_question =
      Except.ok plan) ∧
    (∀ e, (do
        let response ← ainvoke
        jsonLoads (stripCodeFence (pyStrip response)) : Except String ParsedPlan) =
          Except.error e →
      agent_generate_queries (some apiKey) ainvoke jsonLoads user_question =
        Except.ok { entity_keywords := some user_question,
                    document_query := some user_question,
                    web_query := some user_question }) := by
  constructor
  · exact ⟨planner_result ainvoke jsonLoads user_question, rfl⟩
  · intro e he
    simp only [agent_generate_queries, planner_result, he, fallback_plan]

theorem C5_witness :
    agent_generate_queries (some "key") (Except.error "rate limited")
        (fun _ => Except.error "unreachable") "Who funded Acme?" =
      Except.ok { entity_keywords := some "Who funded Acme?",
                  document_query := some "Who funded Acme?",
                  web_query := some "Who funded Acme?" } :=
  (C5_planner_fallback "key" (Except.error "rate limited")
    (fun _ => Except.error "unreachable") "Who funded Acme?").2 "rate limited" rfl

theorem index_note_blank (embed : String → Option (List Rat)) (now card_id note card_type : String)
    (card_metadata : Option CardMeta) (st : EsState) (h : pyStrip note = "") :
    index_note embed now card_id note card_type card_metadata st =
      (true, (if st.indexExists INDEX_NOTES then st
              else st.createIndex INDEX_NOTES).deleteDoc INDEX_NOTES ("note_" ++ card_id)) := by
  simp [index_note, h]

/-- C7: saving an empty or whitespace-only note succeeds and acts as a
delete — the note document is removed and a subsequent `get_note` for that
card returns the empty string. -/
theorem C7_blank_note_deletes (embed : String → Option (List Rat))
    (now card_id note card_type : String) (card_metadata : Option CardMeta)
    (st : EsState) (hblank : pyStrip note = "") (hconn : st.connected = true) :
    (index_note embed now card_id note card_type card_metadata st).1 = true ∧
    get_note card_id (index_note embed now card_id note card_type card_metadata st).2 = "" := by
  rw [index_note_blank embed now card_id note card_type card_metadata st hblank]
  refine ⟨rfl, ?_⟩
  have hconn1 :
      ((if st.indexExists INDEX_NOTES then st
        else st.createIndex INDEX_NOTES).deleteDoc INDEX_NOTES ("note_" ++ card_id)).connected
        = true := by
    show (if st.indexExists INDEX_NOTES then st
          else st.createIndex INDEX_NOTES).connected = true
    split
    · exact hconn
    · rw [createIndex_connected]; exact hconn
  rw [get_note, hconn1, deleteDoc_getDoc]
  rfl

theorem C7_witness :
    (pyStrip "   " = "") ∧
    (index_note (fun _ => some [1]) "t0" "card_1" "   " "company" none wNoteState).1 = true ∧
    get_note "card_1"
      (index_note (fun _ => some [1]) "t0" "card_1" "   " "company" none wNoteState).2 = "" :=
  ⟨by decide,
   C7_blank_note_deletes (fun _ => some [1]) "t0" "card_1" "   " "company" none
     wNoteState (by decide) rfl⟩

/-- C8: when the query embedding fails (`none`) or comes back empty,
`hybrid_search` issues the keyword-only body (no `knn` clause) and returns
the aggregation of that keyword search's hits; the function is total, so
the failed embedding neither aborts the query nor raises. -/
theorem C8_embedding_failure_keyword_fallback (query : String)
    (esSearch : HybridBody → Option (List SourceHit)) (limit : Nat)
    (query_embedding : Option (List Rat))
    (h : query_embedding = none ∨ query_embedding = some []) :
    hybrid_search_body query query_embedding limit = keyword_only_body query limit ∧
    (hybrid_search_body query query_embedding limit).knn = none ∧
    hybrid_search query query_embedding esSearch limit =
      ((hybridAggregate
          (match esSearch (keyword_only_body query limit) with
           | some hits => hits.map docHitToResult
           | none => [])).mergeSort hybridSortLe).take limit := by
  have hb : hybrid_search_body query query_embedding limit = keyword_only_body query limit := by
    rcases h with h | h <;> simp [hybrid_search_body, h]
  refine ⟨hb, by rw [hb]; rfl, ?_⟩
  rw [hybrid_search, hybrid_all_results, hb]

theorem C8_witness :
    hybrid_search_body "alpha" (some []) 10 = keyword_only_body "alpha" 10 ∧
    (hybrid_search_body "alpha" (some []) 10).knn = none :=
  ⟨(C8_embedding_failure_keyword_fallback "alpha" wDocSearch 10 (some []) (Or.inr rfl)).1,
   (C8_embedding_failure_keyword_fallback "alpha" wDocSearch 10 (some []) (Or.inr rfl)).2.1⟩

/-- C2: with the chat model constructible (the planner otherwise raises
before any context exists), `chat_with_ai` invokes the web-search
collaborator exactly once precisely when the entity, notes and document
contexts are all empty after stripping and the planner's web query is
longer than 3 characters; in every other case it is not invoked. -/
theorem C2_web_search_iff (env : ChatEnv) (message : String) (k : String)
    (hk : env.groqKey = some k) :
    ((chat_with_ai env message).2 = 1 ↔
      (pyStrip (chat_entity_notes env message).1 = "" ∧
       pyStrip (chat_entity_notes env message).2 = "" ∧
       pyStrip (chat_doc_context env message) = "" ∧
       (chat_web_query env message).length > 3)) ∧
    ((chat_with_ai env message).2 = 1 ∨ (chat_with_ai env message).2 = 0) := by
  have h2 : (chat_with_ai env message).2 = (chat_web env message).2 := by
    rw [chat_with_ai, hk]
    cases henv : env.synthLLM (chat_final_context env message) <;> simp [henv]
  rw [h2, chat_web]
  constructor
  · split
    · next hA =>
      obtain ⟨he, hn, hd⟩ := hA
      split
      · next hB =>
        constructor
        · intro _
          exact ⟨not_not.mp he, not_not.mp hn, not_not.mp hd, hB.2⟩
        · intro _; rfl
      · next hB =>
        constructor
        · intro h01; exact absurd h01 (by decide)
        · intro ⟨_, _, _, hlen⟩
          refine absurd ⟨?_, hlen⟩ hB
          intro hempty
          rw [hempty] at hlen
          exact absurd hlen (by decide)
    · next hA =>
      constructor
      · intro h01; exact absurd h01 (by decide)
      · intro ⟨he, hn, hd, _⟩
        exact absurd ⟨not_not.mpr he, not_not.mpr hn, not_not.mpr hd⟩ hA
  · split
    · split
      · left; rfl
      · right; rfl
    · right; rfl

theorem C2_witness :
    (chat_with_ai webChatEnv "hello").2 = 1 :=
  ((C2_web_search_iff webChatEnv "hello" "k" rfl).1).mpr (by decide)

/-- C9: `chat_with_ai` is a total function of its collaborators' outcomes —
no exception reaches the caller.  Failures the inner layers do not absorb
(a missing `GROQ_API_KEY`, which aborts planning, and a failing synthesis
call) are the only ones that reach the top-level handler, and each is
converted into the apology string carrying the error detail; when nothing
escapes, the synthesized answer is returned as-is. -/
theorem C9_top_level_catch (env : ChatEnv) (message : String) :
    (env.groqKey = none →
      chat_with_ai env message =
        ("I encountered an error. Details: " ++ groqKeyErrorMsg, 0)) ∧
    (∀ k e, env.groqKey = some k →
      env.synthLLM (chat_final_context env message) = Except.error e →
      (chat_with_ai env message).1 = "I encountered an error. Details: " ++ e) ∧
    (∀ k answer, env.groqKey = some k →
      env.synthLLM (chat_final_context env message) = Except.ok answer →
      (chat_with_ai env message).1 = answer) := by
  refine ⟨?_, ?_, ?_⟩
  · intro h
    rw [chat_with_ai, h]
  · intro k e hk he
    rw [chat_with_ai, hk, he]
  · intro k a hk ha
    rw [chat_with_ai, hk, ha]

theorem C9_witness :
    chat_with_ai noKeyChatEnv "hi" =
      ("I encountered an error. Details: " ++ groqKeyErrorMsg, 0) ∧
    (chat_with_ai errChatEnv "hi").1 = "I encountered an error. Details: boom" ∧
    (chat_with_ai webChatEnv "hi").1 = "Based on web search, Tim Cook." :=
  ⟨(C9_top_level_catch noKeyChatEnv "hi").1 rfl,
   (C9_top_level_catch errChatEnv "hi").2.1 "k" "boom" rfl rfl,
   (C9_top_level_catch webChatEnv "hi").2.2 "k" "Based on web search, Tim Cook." rfl rfl⟩

theorem replaceIfBetter_card_id (r h : DocResult) :
    (replaceIfBetter r h).card_id = h.card_id := by
  unfold replaceIfBetter
  split
  · next hc =>
    simp only [Bool.and_eq_true, beq_iff_eq, decide_eq_true_eq] at hc
    exact hc.1.symm
  · rfl

theorem replaceIfBetter_cases (r h : DocResult) :
    (replaceIfBetter r h = r ∧ h.card_id = r.card_id ∧ h.score < r.score) ∨
    (replaceIfBetter r h = h ∧ (h.card_id = r.card_id → r.score ≤ h.score)) := by
  unfold replaceIfBetter
  split
  · next hc =>
    simp only [Bool.and_eq_true, beq_iff_eq, decide_eq_true_eq] at hc
    exact Or.inl ⟨rfl, hc.1, hc.2⟩
  · next hc =>
    simp only [Bool.and_eq_true, beq_iff_eq, decide_eq_true_eq, not_and] at hc
    exact Or.inr ⟨rfl, fun hk => not_lt.mp (hc hk)⟩

theorem dictUpsertMax_aggInv {P acc : List DocResult} (inv : AggInv P acc) (r : DocResult) :
    AggInv (P ++ [r]) (dictUpsertMax acc r) := by
  by_cases hmem : acc.any (fun h => h.card_id == r.card_id)
  · -- some stored entry already has r's card_id
    have hex : ∃ b0 ∈ acc, b0.card_id = r.card_id := by
      obtain ⟨b0, hb0, hkey⟩ := List.any_eq_true.mp hmem
      exact ⟨b0, hb0, beq_iff_eq.mp hkey⟩
    obtain ⟨b0, hb0, hb0key⟩ := hex
    rw [dictUpsertMax, if_pos hmem]
    refine ⟨?_, ?_, ?_⟩
    · rw [List.map_map]
      have : acc.map (DocResult.card_id ∘ replaceIfBetter r) = acc.map DocResult.card_id :=
        List.map_congr_left (fun a _ => replaceIfBetter_card_id r a)
      rw [this]
      exact inv.nodupKeys
    · intro a ha
      rw [List.mem_map] at ha
      obtain ⟨b, hb, rfl⟩ := ha
      obtain ⟨hbP, hbmax⟩ := inv.sound b hb
      rcases replaceIfBetter_cases r b with ⟨heq, hkey, hlt⟩ | ⟨heq, hge⟩
      · rw [heq]
        refine ⟨List.mem_append_right _ (List.mem_singleton_self _), ?_⟩
        intro h hh hhkey
        rcases List.mem_append.mp hh with hhP | hhr
        · exact le_of_lt (lt_of_le_of_lt (hbmax h hhP (by rw [hhkey, ← hkey])) hlt)
        · rw [List.mem_singleton] at hhr
          rw [hhr]
      · rw [heq]
        refine ⟨List.mem_append_left _ hbP, ?_⟩
        intro h hh hhkey
        rcases List.mem_append.mp hh with hhP | hhr
        · exact hbmax h hhP hhkey
        · rw [List.mem_singleton] at hhr
          subst hhr
          exact hge hhkey.symm
    · intro h hh
      rcases List.mem_append.mp hh with hhP | hhr
      · obtain ⟨b, hb, hbkey⟩ := inv.complete h hhP
        refine ⟨replaceIfBetter r b, List.mem_map_of_mem _ hb, ?_⟩
        rw [replaceIfBetter_card_id, hbkey]
      · rw [List.mem_singleton] at hhr
        refine ⟨replaceIfBetter r b0, List.mem_map_of_mem _ hb0, ?_⟩
        rw [replaceIfBetter_card_id, hb0key, hhr]
  · -- r's card_id is new
    have hno : ∀ a ∈ acc, a.card_id ≠ r.card_id := by
      intro a ha hEq
      exact hmem (List.any_eq_true.mpr ⟨a, ha, beq_iff_eq.mpr hEq⟩)
    rw [dictUpsertMax, if_neg hmem]
    refine ⟨?_, ?_, ?_⟩
    · rw [List.map_append, List.nodup_append]
      refine ⟨inv.nodupKeys, List.nodup_singleton _, ?_⟩
      intro x hx
      rw [List.mem_map] at hx
      obtain ⟨a, ha, rfl⟩ := hx
      simp only [List.map_cons, List.map_nil, List.mem_singleton]
      exact hno a ha
    · intro a ha
      rcases List.mem_append.mp ha with ha' | ha'
      · obtain ⟨haP, hamax⟩ := inv.sound a ha'
        refine ⟨List.mem_append_left _ haP, ?_⟩
        intro h hh hhkey
        rcases List.mem_append.mp hh with hhP | hhr
        · exact hamax h hhP hhkey
        · rw [List.mem_singleton] at hhr
          subst hhr
          exact absurd hhkey.symm (hno a ha')
      · rw [List.mem_singleton] at ha'
        subst ha'
        refine ⟨List.mem_append_right _ (List.mem_singleton_self _), ?_⟩
        intro h hh hhkey
        rcases List.mem_append.mp hh with hhP | hhr
        · obtain ⟨b, hb, hbkey⟩ := inv.complete h hhP
          exact absurd (hbkey.trans hhkey) (hno b hb)
        · rw [List.mem_singleton] at hhr
          rw [hhr]
    · intro h hh
      rcases List.mem_append.mp hh with hhP | hhr
      · obtain ⟨b, hb, hbkey⟩ := inv.complete h hhP
        exact ⟨b, List.mem_append_left _ hb, hbkey⟩
      · rw [List.mem_singleton] at hhr
        exact ⟨r, List.mem_append_right _ (List.mem_singleton_self _), by rw [hhr]⟩

theorem aggInv_foldl : ∀ (l P acc : List DocResult), AggInv P acc →
    AggInv (P ++ l) (l.foldl dictUpsertMax acc)
  | [], P, acc, inv => by simpa using inv
  | r :: t, P, acc, inv => by
    have ih := aggInv_foldl t (P ++ [r]) (dictUpsertMax acc r) (dictUpsertMax_aggInv inv r)
    simpa [List.append_assoc] using ih

theorem hybridAggregate_aggInv (l : List DocResult) : AggInv l (hybridAggregate l) := by
  have h0 : AggInv ([] : List DocResult) [] :=
    ⟨by simp, fun a ha => absurd ha (List.not_mem_nil a),
     fun h hh => absurd hh (List.not_mem_nil h)⟩
  have h := aggInv_foldl l [] [] h0
  simpa [hybridAggregate] using h

theorem hybridSortLe_trans : ∀ a b c : DocResult,
    hybridSortLe a b = true → hybridSortLe b c = true → hybridSortLe a c = true := by
  intro a b c hab hbc
  simp only [hybridSortLe, decide_eq_true_eq] at *
  exact le_trans hbc hab

theorem hybridSortLe_total : ∀ a b : DocResult,
    (hybridSortLe a b || hybridSortLe b a) = true := by
  intro a b
  simp only [hybridSortLe, Bool.or_eq_true, decide_eq_true_eq]
  exact le_total b.score a.score

/-- C1: per query and limit, `hybrid_search` returns pairwise-distinct
`card_id`s; each returned entry is one of that card's chunk hits and
scores at least every chunk hit of the same card; the list is sorted in
descending score order; and its length is at most the requested limit. -/
theorem C1_hybrid_search_dedup (query : String) (query_embedding : Option (List Rat))
    (esSearch : HybridBody → Option (List SourceHit)) (limit : Nat) :
    ((hybrid_search query query_embedding esSearch limit).map DocResult.card_id).Nodup ∧
    (∀ r ∈ hybrid_search query query_embedding esSearch limit,
      r ∈ hybrid_all_results query query_embedding esSearch limit ∧
      ∀ h ∈ hybrid_all_results query query_embedding esSearch limit,
        h.card_id = r.card_id → h.score ≤ r.score) ∧
    (hybrid_search query query_embedding esSearch limit).Pairwise
      (fun a b => b.score ≤ a.score) ∧
    (hybrid_search query query_embedding esSearch limit).length ≤ limit := by
  have inv := hybridAggregate_aggInv (hybrid_all_results query query_embedding esSearch limit)
  have hout : hybrid_search query query_embedding esSearch limit =
      ((hybridAggregate (hybrid_all_results query query_embedding esSearch limit)).mergeSort
        hybridSortLe).take limit := rfl
  set raw := hybrid_all_results query query_embedding esSearch limit with hraw
  set agg := hybridAggregate raw with hagg
  set sorted := agg.mergeSort hybridSortLe with hsorted
  have hperm : sorted.Perm agg := List.mergeSort_perm agg hybridSortLe
  rw [hout]
  refine ⟨?_, ?_, ?_, ?_⟩
  · have h1 : (sorted.map DocResult.card_id).Nodup :=
      ((hperm.map DocResult.card_id).nodup_iff).mpr inv.nodupKeys
    exact h1.sublist ((List.take_sublist limit sorted).map DocResult.card_id)
  · intro r hr
    have hrs : r ∈ sorted := List.take_subset limit sorted hr
    exact inv.sound r (hperm.mem_iff.mp hrs)
  · have hs := List.sorted_mergeSort hybridSortLe_trans hybridSortLe_total agg
    have hs' : sorted.Pairwise (fun a b => b.score ≤ a.score) :=
      hs.imp (fun hab => by simpa [hybridSortLe] using hab)
    exact hs'.sublist (List.take_sublist limit sorted)
  · exact List.length_take_le limit sorted

theorem C1_witness :
    ((hybrid_search "alpha" none wDocSearch 2).map DocResult.card_id).Nodup ∧
    (hybrid_search "alpha" none wDocSearch 2).length ≤ 2 :=
  ⟨(C1_hybrid_search_dedup "alpha" none wDocSearch 2).1,
   (C1_hybrid_search_dedup "alpha" none wDocSearch 2).2.2.2⟩
